import Mathlib

/-!
# Verification of the ll-extraction-bo solvent-extraction optimization script

A shallow embedding, in Lean 4, of `scripts/ll_extraction_2.py`: the
evaluation function `evaluate_extraction`, the derived-parameter rule
`organic_composition = 1.0 - aqueous_composition`, and the sequential trial
loop driving the Ax client.  Real-valued quantities are modelled as exact
rationals (`ℚ`); the Python floats carry no rounding-relevant behaviour in
the claims checked here.
-/

/-- The full parameterization handed to `evaluate_extraction`
(independent parameters plus the derived `organic_composition`). -/
structure ExtractionParams where
  aqueous_composition : ℚ
  organic_composition : ℚ
  stirring_speed : ℚ
  stirring_time : ℚ
  temperature : ℚ
deriving DecidableEq, Repr

/-- The mapping returned by `evaluate_extraction`:
`{"recovery": R, "purity": P, "separation": S, "emulsion": E, "total_time": T}`. -/
structure ExtractionResult where
  recovery : ℚ
  purity : ℚ
  separation : ℚ
  emulsion : ℚ
  total_time : ℚ
deriving DecidableEq, Repr

/-- `evaluate_extraction` from `scripts/ll_extraction_2.py` (lines 9–55),
formula for formula:
* `R = 0.3 + 0.5*organic + 0.2*(speed/500) + 0.1*(temp/40)`, clamped to
  `[0,1]` and converted to a percentage;
* `P = 85 + 10*aqueous + 5*(temp-20)/36`, clamped to `[0,100]`;
* `S = 0.7 + 0.2*(1-speed/500) + 0.1*(temp-4)/36`, clamped, percentage;
* `E = 0.1 + 0.6*(speed/500) + 0.3*(time/120)`, clamped, percentage;
* `T = time + 50 + 1000*(1-S/100) + 500*(E/100)`, clamped to `[0,2000]`. -/
def evaluate_extraction (aqueous_composition organic_composition stirring_speed
    stirring_time temperature : ℚ) : ExtractionResult :=
  let R0 : ℚ := 0.3 + 0.5 * organic_composition + 0.2 * (stirring_speed / 500)
      + 0.1 * (temperature / 40)
  let R : ℚ := min (max R0 0) 1.0 * 100
  let P0 : ℚ := 85 + 10 * aqueous_composition + 5 * (temperature - 20) / 36
  let P : ℚ := min (max P0 0) 100
  let S0 : ℚ := 0.7 + 0.2 * (1 - stirring_speed / 500) + 0.1 * (temperature - 4) / 36
  let S : ℚ := min (max S0 0) 1.0 * 100
  let E0 : ℚ := 0.1 + 0.6 * (stirring_speed / 500) + 0.3 * (stirring_time / 120)
  let E : ℚ := min (max E0 0) 1.0 * 100
  let T0 : ℚ := stirring_time + 50 + 1000 * (1 - S / 100) + 500 * (E / 100)
  let T : ℚ := min (max T0 0) 2000
  { recovery := R, purity := P, separation := S, emulsion := E, total_time := T }

/-- The declared parameter bounds of the experiment
(`create_experiment`, lines 61–67): `aqueous_composition ∈ [0,1]`,
`stirring_speed ∈ [100,500]`, `stirring_time ∈ [10,120]`,
`temperature ∈ [4,40]`. -/
def inBounds (p : ExtractionParams) : Prop :=
  0 ≤ p.aqueous_composition ∧ p.aqueous_composition ≤ 1 ∧
    100 ≤ p.stirring_speed ∧ p.stirring_speed ≤ 500 ∧
    10 ≤ p.stirring_time ∧ p.stirring_time ≤ 120 ∧
    4 ≤ p.temperature ∧ p.temperature ≤ 40

/-- A clamp `min (max x lo) hi` lands in `[lo, hi]` whenever `lo ≤ hi`. -/
lemma clamp_mem {x lo hi : ℚ} (h : lo ≤ hi) :
    lo ≤ min (max x lo) hi ∧ min (max x lo) hi ≤ hi :=
  ⟨le_min (le_max_right x lo) h, min_le_right _ _⟩

/-- A clamp is the identity on a value already inside `[lo, hi]`. -/
lemma clamp_eq_self {x lo hi : ℚ} (h1 : lo ≤ x) (h2 : x ≤ hi) :
    min (max x lo) hi = x := by
  rw [max_eq_left h1, min_eq_left h2]

lemma evaluate_extraction_recovery (a o s t T : ℚ) :
    (evaluate_extraction a o s t T).recovery =
      min (max (0.3 + 0.5 * o + 0.2 * (s / 500) + 0.1 * (T / 40)) 0) 1.0 * 100 := rfl

lemma evaluate_extraction_purity (a o s t T : ℚ) :
    (evaluate_extraction a o s t T).purity =
      min (max (85 + 10 * a + 5 * (T - 20) / 36) 0) 100 := rfl

lemma evaluate_extraction_separation (a o s t T : ℚ) :
    (evaluate_extraction a o s t T).separation =
      min (max (0.7 + 0.2 * (1 - s / 500) + 0.1 * (T - 4) / 36) 0) 1.0 * 100 := rfl

lemma evaluate_extraction_emulsion (a o s t T : ℚ) :
    (evaluate_extraction a o s t T).emulsion =
      min (max (0.1 + 0.6 * (s / 500) + 0.3 * (t / 120)) 0) 1.0 * 100 := rfl

lemma evaluate_extraction_total_time (a o s t T : ℚ) :
    (evaluate_extraction a o s t T).total_time =
      min (max (t + 50 + 1000 * (1 - (evaluate_extraction a o s t T).separation / 100)
        + 500 * ((evaluate_extraction a o s t T).emulsion / 100)) 0) 2000 := rfl

/-- C1 counterexample: at the spec's fixed scenario input
(`aqueous=0.5, organic=0.5, speed=300, time=60, temp=20`) the code returns
`recovery = 72.0` and `separation = 742/9 ≈ 82.44`, so the figures
`recovery = 68.0` and `separation = 78.44` asserted by the claim are false. -/
theorem evaluate_extraction_scenario_figures_false :
    (evaluate_extraction 0.5 0.5 300 60 20).recovery ≠ 68 ∧
      (evaluate_extraction 0.5 0.5 300 60 20).separation ≠ 78.44 := by
  constructor <;> norm_num [evaluate_extraction]

/-- C1 (amended): at the fixed input `aqueous=0.5, organic=0.5, speed=300,
time=60, temp=20`, the evaluation returns `recovery = 72.0`, `purity = 90.0`
and `separation = 742/9`, which rounds to `82.44` (within `0.005`); these are
the values the spec's own formulas produce, its printed figures `68.0` and
`78.44` being arithmetic slips. -/
theorem evaluate_extraction_scenario :
    (evaluate_extraction 0.5 0.5 300 60 20).recovery = 72 ∧
      (evaluate_extraction 0.5 0.5 300 60 20).purity = 90 ∧
      (evaluate_extraction 0.5 0.5 300 60 20).separation = 742 / 9 ∧
      |(evaluate_extraction 0.5 0.5 300 60 20).separation - 82.44| < 1 / 200 := by
  refine ⟨?_, ?_, ?_, ?_⟩ <;> norm_num [evaluate_extraction, abs_lt]


/-- C9: `evaluate_extraction` is a pure function of its five arguments —
two invocations with the same parameter values return the same result
mapping (the function reads no other state and uses no randomness). -/
theorem evaluate_extraction_deterministic (a o s t T a2 o2 s2 t2 T2 : ℚ)
    (ha : a = a2) (ho : o = o2) (hs : s = s2) (ht : t = t2) (hT : T = T2) :
    evaluate_extraction a o s t T = evaluate_extraction a2 o2 s2 t2 T2 := by
  rw [ha, ho, hs, ht, hT]

/-- C9 witness at the concrete scenario input. -/
theorem evaluate_extraction_deterministic_witness :
    evaluate_extraction 0.5 0.5 300 60 20 = evaluate_extraction 0.5 0.5 300 60 20 :=
  evaluate_extraction_deterministic 0.5 0.5 300 60 20 0.5 0.5 300 60 20
    rfl rfl rfl rfl rfl

/-- C3: within the declared bounds (with `organic = 1 - aqueous`), the
evaluation returns all five declared objectives, each inside its clamped
range: `recovery`, `purity`, `separation`, `emulsion ∈ [0,100]` and
`total_time ∈ [0,2000]`; the clamps saturate unconditionally, never error. -/
theorem evaluate_extraction_in_clamped_ranges (p : ExtractionParams)
    (hb : inBounds p)
    (horg : p.organic_composition = 1 - p.aqueous_composition) :
    (0 ≤ (evaluate_extraction p.aqueous_composition p.organic_composition
        p.stirring_speed p.stirring_time p.temperature).recovery ∧
      (evaluate_extraction p.aqueous_composition p.organic_composition
        p.stirring_speed p.stirring_time p.temperature).recovery ≤ 100) ∧
    (0 ≤ (evaluate_extraction p.aqueous_composition p.organic_composition
        p.stirring_speed p.stirring_time p.temperature).purity ∧
      (evaluate_extraction p.aqueous_composition p.organic_composition
        p.stirring_speed p.stirring_time p.temperature).purity ≤ 100) ∧
    (0 ≤ (evaluate_extraction p.aqueous_composition p.organic_composition
        p.stirring_speed p.stirring_time p.temperature).separation ∧
      (evaluate_extraction p.aqueous_composition p.organic_composition
        p.stirring_speed p.stirring_time p.temperature).separation ≤ 100) ∧
    (0 ≤ (evaluate_extraction p.aqueous_composition p.organic_composition
        p.stirring_speed p.stirring_time p.temperature).emulsion ∧
      (evaluate_extraction p.aqueous_composition p.organic_composition
        p.stirring_speed p.stirring_time p.temperature).emulsion ≤ 100) ∧
    (0 ≤ (evaluate_extraction p.aqueous_composition p.organic_composition
        p.stirring_speed p.stirring_time p.temperature).total_time ∧
      (evaluate_extraction p.aqueous_composition p.organic_composition
        p.stirring_speed p.stirring_time p.temperature).total_time ≤ 2000) := by
  rw [evaluate_extraction_recovery, evaluate_extraction_purity,
    evaluate_extraction_separation, evaluate_extraction_emulsion,
    evaluate_extraction_total_time]
  have h01 : (0:ℚ) ≤ 1.0 := by norm_num
  have hR := clamp_mem (x := 0.3 + 0.5 * p.organic_composition
    + 0.2 * (p.stirring_speed / 500) + 0.1 * (p.temperature / 40)) h01
  have hP := clamp_mem (x := 85 + 10 * p.aqueous_composition
    + 5 * (p.temperature - 20) / 36) (by norm_num : (0:ℚ) ≤ 100)
  have hS := clamp_mem (x := 0.7 + 0.2 * (1 - p.stirring_speed / 500)
    + 0.1 * (p.temperature - 4) / 36) h01
  have hE := clamp_mem (x := 0.1 + 0.6 * (p.stirring_speed / 500)
    + 0.3 * (p.stirring_time / 120)) h01
  refine ⟨⟨by linarith [hR.1, hR.2], by linarith [hR.1, hR.2]⟩,
    ⟨hP.1, hP.2⟩,
    ⟨by linarith [hS.1, hS.2], by linarith [hS.1, hS.2]⟩,
    ⟨by linarith [hE.1, hE.2], by linarith [hE.1, hE.2]⟩, ?_⟩
  have hT := clamp_mem
    (x := p.stirring_time + 50
      + 1000 * (1 - (evaluate_extraction p.aqueous_composition
          p.organic_composition p.stirring_speed p.stirring_time
          p.temperature).separation / 100)
      + 500 * ((evaluate_extraction p.aqueous_composition
          p.organic_composition p.stirring_speed p.stirring_time
          p.temperature).emulsion / 100)) (by norm_num : (0:ℚ) ≤ 2000)
  exact ⟨hT.1, hT.2⟩

/-- C3 witness at the scenario input, which lies inside every bound. -/
theorem evaluate_extraction_in_clamped_ranges_witness :
    (0 ≤ (evaluate_extraction (0.5:ℚ) (1 - 0.5) 300 60 20).recovery ∧
      (evaluate_extraction (0.5:ℚ) (1 - 0.5) 300 60 20).recovery ≤ 100) ∧
    (0 ≤ (evaluate_extraction (0.5:ℚ) (1 - 0.5) 300 60 20).purity ∧
      (evaluate_extraction (0.5:ℚ) (1 - 0.5) 300 60 20).purity ≤ 100) ∧
    (0 ≤ (evaluate_extraction (0.5:ℚ) (1 - 0.5) 300 60 20).separation ∧
      (evaluate_extraction (0.5:ℚ) (1 - 0.5) 300 60 20).separation ≤ 100) ∧
    (0 ≤ (evaluate_extraction (0.5:ℚ) (1 - 0.5) 300 60 20).emulsion ∧
      (evaluate_extraction (0.5:ℚ) (1 - 0.5) 300 60 20).emulsion ≤ 100) ∧
    (0 ≤ (evaluate_extraction (0.5:ℚ) (1 - 0.5) 300 60 20).total_time ∧
      (evaluate_extraction (0.5:ℚ) (1 - 0.5) 300 60 20).total_time ≤ 2000) :=
  evaluate_extraction_in_clamped_ranges
    { aqueous_composition := 0.5, organic_composition := 1 - 0.5,
      stirring_speed := 300, stirring_time := 60, temperature := 20 }
    (by norm_num [inBounds]) rfl

/-- C8: with `stirring_speed` at its upper bound `500` and every remaining
parameter inside its declared bounds (with the derived
`organic = 1 - aqueous`), `recovery` never exceeds `100`: the clamp
`min (max R 0) 1 * 100` saturates the raw value instead of overflowing. -/
theorem recovery_saturates_at_max_speed (p : ExtractionParams)
    (hspeed : p.stirring_speed = 500) (hb : inBounds p)
    (horg : p.organic_composition = 1 - p.aqueous_composition) :
    (evaluate_extraction p.aqueous_composition p.organic_composition
      p.stirring_speed p.stirring_time p.temperature).recovery ≤ 100 := by
  rw [evaluate_extraction_recovery]
  have hR := clamp_mem
    (x := 0.3 + 0.5 * p.organic_composition + 0.2 * (p.stirring_speed / 500)
      + 0.1 * (p.temperature / 40)) (by norm_num : (0:ℚ) ≤ 1.0)
  linarith [hR.2]

/-- C8 witness: `organic = 1`, `temperature = 40`, where the raw recovery is
`1.1` and the clamp saturates. -/
theorem recovery_saturates_at_max_speed_witness :
    (evaluate_extraction (0:ℚ) (1 - 0) 500 60 40).recovery ≤ 100 :=
  recovery_saturates_at_max_speed
    { aqueous_composition := 0, organic_composition := 1 - 0,
      stirring_speed := 500, stirring_time := 60, temperature := 40 }
    rfl (by norm_num [inBounds]) rfl

/-- C10 (implicit): within the declared bounds the `purity` and `total_time`
clamps are never active: the raw purity already lies in
`[745/9, 880/9] ⊆ (0, 100)` (about `[82.8, 97.8]`) and the raw total time in
`[60, 1670] ⊆ [0, 2000]`, so `min`/`max` saturation returns both raw values
unchanged. -/
theorem purity_total_time_clamps_inactive (p : ExtractionParams)
    (hb : inBounds p) :
    ((evaluate_extraction p.aqueous_composition p.organic_composition
        p.stirring_speed p.stirring_time p.temperature).purity =
      85 + 10 * p.aqueous_composition + 5 * (p.temperature - 20) / 36 ∧
      745 / 9 ≤ (evaluate_extraction p.aqueous_composition p.organic_composition
        p.stirring_speed p.stirring_time p.temperature).purity ∧
      (evaluate_extraction p.aqueous_composition p.organic_composition
        p.stirring_speed p.stirring_time p.temperature).purity ≤ 880 / 9) ∧
    ((evaluate_extraction p.aqueous_composition p.organic_composition
        p.stirring_speed p.stirring_time p.temperature).total_time =
      p.stirring_time + 50
        + 1000 * (1 - (evaluate_extraction p.aqueous_composition
            p.organic_composition p.stirring_speed p.stirring_time
            p.temperature).separation / 100)
        + 500 * ((evaluate_extraction p.aqueous_composition
            p.organic_composition p.stirring_speed p.stirring_time
            p.temperature).emulsion / 100) ∧
      60 ≤ (evaluate_extraction p.aqueous_composition p.organic_composition
        p.stirring_speed p.stirring_time p.temperature).total_time ∧
      (evaluate_extraction p.aqueous_composition p.organic_composition
        p.stirring_speed p.stirring_time p.temperature).total_time ≤ 1670) := by
  obtain ⟨ha0, ha1, hs0, hs1, ht0, ht1, hT0, hT1⟩ := hb
  have hPlow : (745:ℚ) / 9 ≤ 85 + 10 * p.aqueous_composition
      + 5 * (p.temperature - 20) / 36 := by linarith
  have hPhigh : 85 + 10 * p.aqueous_composition
      + 5 * (p.temperature - 20) / 36 ≤ (880:ℚ) / 9 := by linarith
  have hPeq : (evaluate_extraction p.aqueous_composition p.organic_composition
      p.stirring_speed p.stirring_time p.temperature).purity =
      85 + 10 * p.aqueous_composition + 5 * (p.temperature - 20) / 36 := by
    rw [evaluate_extraction_purity]
    exact clamp_eq_self (by linarith) (by linarith)
  have hS := clamp_mem (x := 0.7 + 0.2 * (1 - p.stirring_speed / 500)
    + 0.1 * (p.temperature - 4) / 36) (by norm_num : (0:ℚ) ≤ 1.0)
  have hE := clamp_mem (x := 0.1 + 0.6 * (p.stirring_speed / 500)
    + 0.3 * (p.stirring_time / 120)) (by norm_num : (0:ℚ) ≤ 1.0)
  have hSperc := evaluate_extraction_separation p.aqueous_composition
    p.organic_composition p.stirring_speed p.stirring_time p.temperature
  have hEperc := evaluate_extraction_emulsion p.aqueous_composition
    p.organic_composition p.stirring_speed p.stirring_time p.temperature
  have hTlow : (60:ℚ) ≤ p.stirring_time + 50
      + 1000 * (1 - (evaluate_extraction p.aqueous_composition
          p.organic_composition p.stirring_speed p.stirring_time
          p.temperature).separation / 100)
      + 500 * ((evaluate_extraction p.aqueous_composition
          p.organic_composition p.stirring_speed p.stirring_time
          p.temperature).emulsion / 100) := by
    rw [hSperc, hEperc]; nlinarith [hS.1, hS.2, hE.1, hE.2]
  have hThigh : p.stirring_time + 50
      + 1000 * (1 - (evaluate_extraction p.aqueous_composition
          p.organic_composition p.stirring_speed p.stirring_time
          p.temperature).separation / 100)
      + 500 * ((evaluate_extraction p.aqueous_composition
          p.organic_composition p.stirring_speed p.stirring_time
          p.temperature).emulsion / 100) ≤ (1670:ℚ) := by
    rw [hSperc, hEperc]; nlinarith [hS.1, hS.2, hE.1, hE.2]
  have hTeq : (evaluate_extraction p.aqueous_composition p.organic_composition
      p.stirring_speed p.stirring_time p.temperature).total_time =
      p.stirring_time + 50
        + 1000 * (1 - (evaluate_extraction p.aqueous_composition
            p.organic_composition p.stirring_speed p.stirring_time
            p.temperature).separation / 100)
        + 500 * ((evaluate_extraction p.aqueous_composition
            p.organic_composition p.stirring_speed p.stirring_time
            p.temperature).emulsion / 100) := by
    rw [evaluate_extraction_total_time]
    exact clamp_eq_self (by linarith) (by linarith)
  exact ⟨⟨hPeq, by rw [hPeq]; exact hPlow, by rw [hPeq]; exact hPhigh⟩,
    ⟨hTeq, by rw [hTeq]; exact hTlow, by rw [hTeq]; exact hThigh⟩⟩

/-- C10 witness at the scenario input. -/
theorem purity_total_time_clamps_inactive_witness :
    ((evaluate_extraction (0.5:ℚ) 0.5 300 60 20).purity =
      85 + 10 * (0.5:ℚ) + 5 * ((20:ℚ) - 20) / 36 ∧
      745 / 9 ≤ (evaluate_extraction (0.5:ℚ) 0.5 300 60 20).purity ∧
      (evaluate_extraction (0.5:ℚ) 0.5 300 60 20).purity ≤ 880 / 9) ∧
    ((evaluate_extraction (0.5:ℚ) 0.5 300 60 20).total_time =
      (60:ℚ) + 50
        + 1000 * (1 - (evaluate_extraction (0.5:ℚ) 0.5 300 60 20).separation / 100)
        + 500 * ((evaluate_extraction (0.5:ℚ) 0.5 300 60 20).emulsion / 100) ∧
      60 ≤ (evaluate_extraction (0.5:ℚ) 0.5 300 60 20).total_time ∧
      (evaluate_extraction (0.5:ℚ) 0.5 300 60 20).total_time ≤ 1670) :=
  purity_total_time_clamps_inactive
    { aqueous_composition := 0.5, organic_composition := 0.5,
      stirring_speed := 300, stirring_time := 60, temperature := 20 }
    (by norm_num [inBounds])

/-- A candidate parameterization as returned by `ax_client.get_next_trial()`:
the four independent range parameters declared in `create_experiment`
(lines 61–66); `organic_composition` is not searched, it is derived. -/
structure Candidate where
  aqueous_composition : ℚ
  stirring_speed : ℚ
  stirring_time : ℚ
  temperature : ℚ
deriving DecidableEq, Repr

/-- Loop body, lines 88–93: extract the candidate's parameters and recompute
`organic_composition = 1.0 - aqueous_composition` ("Enforce composition
constraint") immediately before evaluation. -/
def resolveParams (c : Candidate) : ExtractionParams :=
  { aqueous_composition := c.aqueous_composition
    organic_composition := 1.0 - c.aqueous_composition
    stirring_speed := c.stirring_speed
    stirring_time := c.stirring_time
    temperature := c.temperature }

/-- One completed trial as the Ax client records it: its index, the full
parameterization that was evaluated, and the reported raw data (the spec's
`Trial` in its `completed` state). -/
structure TrialRecord where
  index : ℕ
  params : ExtractionParams
  result : ExtractionResult
deriving DecidableEq, Repr

/-- Modelled from the spec: the state of the external optimizer boundary
(`AxClient` is a third-party service, not code of this repository).  Per §6
it hands out monotonically increasing trial indices (`get_next_trial`) and
accumulates completed trials (`complete_trial`, `get_trials_data_frame`). -/
structure AxState where
  nextIndex : ℕ
  history : List TrialRecord
deriving DecidableEq, Repr

/-- A fresh client, as built by `AxClient()` + `create_experiment` (line 58). -/
def initState : AxState := { nextIndex := 0, history := [] }

/-- Modelled from the spec: `get_next_trial()` returns the optimizer's
candidate (an opaque suggestion stream `suggest`, indexed by trial) together
with the next free, monotonically increasing trial index. -/
def get_next_trial (suggest : ℕ → Candidate) (st : AxState) :
    (Candidate × ℕ) × AxState :=
  ((suggest st.nextIndex, st.nextIndex),
    { nextIndex := st.nextIndex + 1, history := st.history })

/-- Modelled from the spec: `complete_trial(trial_index, raw_data)` appends
the completed trial to the client's history (the evaluated parameterization
is recorded alongside, as in the spec's `Trial`). -/
def complete_trial (st : AxState) (trial_index : ℕ) (params : ExtractionParams)
    (raw_data : ExtractionResult) : AxState :=
  { nextIndex := st.nextIndex,
    history := st.history ++ [⟨trial_index, params, raw_data⟩] }

/-- An observable interaction of the trial loop with the Ax client. -/
inductive DriverEvent where
  | getNext (i : ℕ)
  | complete (i : ℕ)
deriving DecidableEq, Repr

/-- The trial loop of lines 83–105 (`for i in range(num_trials)`): each
iteration requests a candidate, recomputes the derived organic fraction,
evaluates, and reports the result.  Alongside the final client state it
returns the trace of boundary events in order. -/
def runLoop (suggest : ℕ → Candidate) : ℕ → AxState → AxState × List DriverEvent
  | 0, st => (st, [])
  | n + 1, st =>
    let r := get_next_trial suggest st
    let p := resolveParams r.1.1
    let results := evaluate_extraction p.aqueous_composition
      p.organic_composition p.stirring_speed p.stirring_time p.temperature
    let st2 := complete_trial r.2 r.1.2 p results
    let rest := runLoop suggest n st2
    (rest.1, DriverEvent.getNext r.1.2 :: DriverEvent.complete r.1.2 :: rest.2)

/-- A full run of the script: `num_trials` iterations from a fresh client. -/
def runExperiment (suggest : ℕ → Candidate) (num_trials : ℕ) :
    AxState × List DriverEvent :=
  runLoop suggest num_trials initState

/-- The record trial `i` leaves in the history. -/
def trialRecordAt (suggest : ℕ → Candidate) (i : ℕ) : TrialRecord :=
  let p := resolveParams (suggest i)
  ⟨i, p, evaluate_extraction p.aqueous_composition p.organic_composition
    p.stirring_speed p.stirring_time p.temperature⟩

/-- The strictly alternating request/report trace starting at index `k`. -/
def seqTrace : ℕ → ℕ → List DriverEvent
  | _, 0 => []
  | k, n + 1 => DriverEvent.getNext k :: DriverEvent.complete k :: seqTrace (k + 1) n

/-- Closed form of the loop: final index, recorded history, event trace. -/
lemma runLoop_state (suggest : ℕ → Candidate) (n : ℕ) : ∀ st : AxState,
    (runLoop suggest n st).1.nextIndex = st.nextIndex + n ∧
    (runLoop suggest n st).1.history =
      st.history ++ (List.range' st.nextIndex n).map (trialRecordAt suggest) ∧
    (runLoop suggest n st).2 = seqTrace st.nextIndex n := by
  induction n with
  | zero => intro st; simp [runLoop, seqTrace]
  | succ n ih =>
    intro st
    obtain ⟨h1, h2, h3⟩ :=
      ih ⟨st.nextIndex + 1, st.history ++ [trialRecordAt suggest st.nextIndex]⟩
    refine ⟨?_, ?_, ?_⟩
    · simpa [runLoop, get_next_trial, complete_trial, trialRecordAt,
        Nat.add_comm, Nat.add_assoc, Nat.add_left_comm] using h1
    · rw [show (List.range' st.nextIndex (n + 1)) =
        st.nextIndex :: List.range' (st.nextIndex + 1) n from
        List.range'_succ st.nextIndex n 1]
      simpa [runLoop, get_next_trial, complete_trial, trialRecordAt] using h2
    · rw [show seqTrace st.nextIndex (n + 1) = DriverEvent.getNext st.nextIndex
        :: DriverEvent.complete st.nextIndex :: seqTrace (st.nextIndex + 1) n
        from rfl]
      simpa [runLoop, get_next_trial, complete_trial, trialRecordAt] using h3

/-- C5: the trial indices a run of budget `N` records are exactly
`0, 1, ..., N-1` — in strictly increasing order, no gaps, no repeats. -/
theorem trial_indices_exactly_range (suggest : ℕ → Candidate) (N : ℕ) :
    (runExperiment suggest N).1.history.map TrialRecord.index = List.range N ∧
      ((runExperiment suggest N).1.history.map TrialRecord.index).Pairwise (· < ·) := by
  have h := (runLoop_state suggest N initState).2.1
  have hmap : (runExperiment suggest N).1.history.map TrialRecord.index
      = List.range N := by
    rw [runExperiment, h]
    simp only [initState, List.nil_append, List.map_map]
    rw [List.range_eq_range' N]
    have : TrialRecord.index ∘ trialRecordAt suggest = fun i => i := by
      funext i; rfl
    rw [this]
    simp
  exact ⟨hmap, by rw [hmap]; exact List.pairwise_lt_range N⟩

/-- The spec's sequential-trial discipline (§4.4 ordering guarantee, §5):
scan the event trace keeping the in-flight trial (if any) and the next free
index; a request is legal only when nothing is in flight and its index is
the next free one, a report only for the trial in flight, and the trace must
end with nothing in flight.  `true` iff the trace is strictly sequential,
with consecutive indices and never two trials in flight. -/
def checkSeq : Option ℕ → ℕ → List DriverEvent → Bool
  | none, _, [] => true
  | some _, _, [] => false
  | none, k, DriverEvent.getNext i :: rest => i == k && checkSeq (some i) (k + 1) rest
  | none, _, DriverEvent.complete _ :: _ => false
  | some j, k, DriverEvent.complete i :: rest => i == j && checkSeq none k rest
  | some _, _, DriverEvent.getNext _ :: _ => false

lemma checkSeq_seqTrace : ∀ (n k : ℕ), checkSeq none k (seqTrace k n) = true := by
  intro n
  induction n with
  | zero => intro k; rfl
  | succ n ih => intro k; simpa [seqTrace, checkSeq] using ih (k + 1)

/-- C6: the trial loop is strictly sequential — its boundary trace passes
the sequential-discipline monitor: the candidate for trial `n+1` is only
ever requested after trial `n`'s result has been reported, and at no point
are two trials in flight. -/
theorem trials_strictly_sequential (suggest : ℕ → Candidate) (N : ℕ) :
    checkSeq none 0 (runExperiment suggest N).2 = true := by
  have h := (runLoop_state suggest N initState).2.2
  rw [runExperiment, h]
  exact checkSeq_seqTrace N 0

/-- C2: every trial of a run recomputes
`organic_composition = 1.0 - aqueous_composition` from its candidate
immediately before evaluation (line 90), so every recorded full
parameterization satisfies `aqueous + organic = 1` exactly — for every
suggestion stream whose aqueous fractions lie in `[0, 1]`. -/
theorem derived_organic_sums_to_one (suggest : ℕ → Candidate) (N : ℕ)
    (hs : ∀ i, 0 ≤ (suggest i).aqueous_composition ∧
      (suggest i).aqueous_composition ≤ 1) :
    List.Forall (fun tr : TrialRecord =>
        tr.params.aqueous_composition + tr.params.organic_composition = 1)
      (runExperiment suggest N).1.history := by
  rw [List.forall_iff_forall_mem]
  intro tr htr
  rw [runExperiment, (runLoop_state suggest N initState).2.1] at htr
  simp only [initState, List.nil_append, List.mem_map] at htr
  obtain ⟨i, _, rfl⟩ := htr
  show (suggest i).aqueous_composition + (1.0 - (suggest i).aqueous_composition) = 1
  ring

/-- A constant suggestion stream at the scenario candidate. -/
def constCandidate : ℕ → Candidate := fun _ =>
  { aqueous_composition := 0.5, stirring_speed := 300,
    stirring_time := 60, temperature := 20 }

/-- C2 witness: a one-trial run over the constant scenario stream. -/
theorem derived_organic_sums_to_one_witness :
    List.Forall (fun tr : TrialRecord =>
        tr.params.aqueous_composition + tr.params.organic_composition = 1)
      (runExperiment constCandidate 1).1.history :=
  derived_organic_sums_to_one constCandidate 1
    (fun i => by constructor <;> norm_num [constCandidate])

/-- Modelled from the spec: the Trial Driver's states (§4.4). -/
inductive DriverPhase where
  | idle
  | awaiting_candidate
  | evaluating
  | done
deriving DecidableEq, Repr

/-- Modelled from the spec: the Trial Driver state machine's data — current
state, remaining-budget counter, and the number of trials settled so far. -/
structure DriverSM where
  phase : DriverPhase
  budget : ℕ
  trialsDone : ℕ
deriving DecidableEq, Repr

/-- Modelled from the spec: one transition of §4.4's state machine on the
success path (the script's evaluation function is total, so the
`evaluating → done` failure transition never fires in this run):
`idle → awaiting_candidate`; `awaiting_candidate → done` when the budget is
zero, else `→ evaluating`; `evaluating → awaiting_candidate` with the budget
decremented and the trial counted; `done` is terminal. -/
def driverStep (s : DriverSM) : DriverSM :=
  match s.phase with
  | DriverPhase.idle => { s with phase := DriverPhase.awaiting_candidate }
  | DriverPhase.awaiting_candidate =>
      if s.budget = 0 then { s with phase := DriverPhase.done }
      else { s with phase := DriverPhase.evaluating }
  | DriverPhase.evaluating =>
      { phase := DriverPhase.awaiting_candidate, budget := s.budget - 1,
        trialsDone := s.trialsDone + 1 }
  | DriverPhase.done => s

/-- C7: a run with trial budget `N = 30` terminates with exactly 30
completed trials in the history, and the driver state machine started at
`(idle, budget 30)` reaches the terminal state `done` — after exactly 62
transitions (never earlier), having settled exactly 30 trials — and stays
there. -/
theorem run_budget_30_reaches_done (suggest : ℕ → Candidate) :
    (runExperiment suggest 30).1.history.length = 30 ∧
      driverStep^[62] ⟨DriverPhase.idle, 30, 0⟩ = ⟨DriverPhase.done, 0, 30⟩ ∧
      ((List.range 62).all fun k =>
        (driverStep^[k] ⟨DriverPhase.idle, 30, 0⟩).phase != DriverPhase.done) = true ∧
      driverStep ⟨DriverPhase.done, 0, 30⟩ = ⟨DriverPhase.done, 0, 30⟩ := by
  refine ⟨?_, by decide, by decide, rfl⟩
  rw [runExperiment, (runLoop_state suggest 30 initState).2.1]
  simp [initState]

/-- An objective name declared in `create_experiment` (lines 68–74). -/
inductive ObjectiveName where
  | recovery
  | purity
  | separation
  | emulsion
  | total_time
deriving DecidableEq, Repr

/-- Modelled from the spec: a raw reported metric value as the driver sees
it — a finite number, or one of the non-finite floats the evaluation
contract of §4.3 forbids. -/
inductive RawValue where
  | fin (q : ℚ)
  | nan
  | posInf
  | negInf
deriving DecidableEq, Repr

/-- `true` iff the value is a finite number. -/
def RawValue.isFinite : RawValue → Bool
  | RawValue.fin _ => true
  | _ => false

/-- Modelled from the spec: the per-trial evaluation-contract error of §7's
taxonomy. -/
inductive DriverError where
  | incompleteResult
deriving DecidableEq, Repr

/-- Modelled from the spec: the evaluation contract check of §4.3 — the raw
result mapping must carry a finite value for every declared objective; a
missing objective key or a non-finite value is an `IncompleteResultError`,
otherwise the five values form the result that is reported. -/
def checkResult (raw : ObjectiveName → Option RawValue) :
    Except DriverError ExtractionResult :=
  match raw ObjectiveName.recovery, raw ObjectiveName.purity,
      raw ObjectiveName.separation, raw ObjectiveName.emulsion,
      raw ObjectiveName.total_time with
  | some (RawValue.fin r), some (RawValue.fin p), some (RawValue.fin s),
      some (RawValue.fin e), some (RawValue.fin t) =>
    Except.ok (ExtractionResult.mk r p s e t)
  | _, _, _, _, _ => Except.error DriverError.incompleteResult

/-- The spec's `Trial` lifecycle states. -/
inductive TrialStatus where
  | pending
  | completed
  | failed
deriving DecidableEq, Repr

/-- Modelled from the spec: reporting one trial's raw result through the
driver.  On a contract violation the trial is marked `failed`, the error
surfaces to the caller, the client state — and with it every earlier
trial — is left untouched, and no retry happens: this single check is the
only inspection of the evaluation's result. -/
def completeTrialChecked (st : AxState) (trial_index : ℕ)
    (params : ExtractionParams) (raw : ObjectiveName → Option RawValue) :
    AxState × TrialStatus × Option DriverError :=
  match checkResult raw with
  | Except.ok r =>
    (complete_trial st trial_index params r, TrialStatus.completed, none)
  | Except.error e => (st, TrialStatus.failed, some e)

/-- C4: a raw result that misses a declared objective key or carries a
non-finite value makes the driver surface `IncompleteResultError`, mark the
trial `failed`, and leave the client state (all earlier trials) untouched —
the error aborts only the current trial and no retry is attempted. -/
theorem incomplete_result_fails_trial (st : AxState) (trial_index : ℕ)
    (params : ExtractionParams) (raw : ObjectiveName → Option RawValue)
    (h : ∃ name : ObjectiveName, raw name = none ∨
      ∃ v, raw name = some v ∧ RawValue.isFinite v = false) :
    completeTrialChecked st trial_index params raw =
      (st, TrialStatus.failed, some DriverError.incompleteResult) := by
  obtain ⟨name, hname⟩ := h
  have hcheck : checkResult raw = Except.error DriverError.incompleteResult := by
    unfold checkResult
    split
    · rcases hname with h1 | ⟨v, hv, hfin⟩ <;> cases name <;>
        simp_all [RawValue.isFinite]
    · rfl
  unfold completeTrialChecked
  rw [hcheck]

/-- A raw result whose `purity` key is missing and whose `total_time` is the
non-finite `nan`. -/
def rawBadResult : ObjectiveName → Option RawValue := fun n =>
  match n with
  | ObjectiveName.purity => none
  | ObjectiveName.total_time => some RawValue.nan
  | _ => some (RawValue.fin 0)

/-- C4 witness: reporting `rawBadResult` for trial 0 on a fresh client. -/
theorem incomplete_result_fails_trial_witness :
    completeTrialChecked initState 0 (resolveParams (constCandidate 0))
        rawBadResult =
      (initState, TrialStatus.failed, some DriverError.incompleteResult) :=
  incomplete_result_fails_trial initState 0 (resolveParams (constCandidate 0))
    rawBadResult ⟨ObjectiveName.purity, Or.inl rfl⟩
